import Mathlib

/-!
Shallow embedding of the Lissajous curve sketcher (src/lissajous.py and
src/lissajousSimple.py) together with proofs about its curve model and
animation engine.

The Python source is single-threaded and event driven; we embed each
handler as a pure state-transition function on an explicit record of the
fields it reads and writes.  NumPy arrays become Lean lists, machine
floats become real numbers.
-/

open Real

set_option maxRecDepth 4000

noncomputable section

/-- A rendered vertex: an (x, y) pair, as stored in one row of the
`points` array. -/
abbrev Pt := ℝ × ℝ

/-- An RGB colour, as stored in one row of the `colours` array. -/
abbrev Colour := ℝ × ℝ × ℝ

/-- The curve model state: class `Lissajous` of src/lissajous.py.
Fields `x`, `y` hold the result of the latest update; `xFreq`, `yFreq`,
`delta` are the curve parameters. -/
structure Lissajous where
  x : ℝ
  y : ℝ
  xFreq : ℝ
  yFreq : ℝ
  delta : ℝ

/-- `Lissajous.updateLissajous`: `self.x = np.sin(self.xFreq * dt)`;
`self.y = np.sin(self.yFreq * dt + self.delta)`. -/
def updateLissajous (s : Lissajous) (dt : ℝ) : Lissajous :=
  { s with x := Real.sin (s.xFreq * dt), y := Real.sin (s.yFreq * dt + s.delta) }

/-- Which handler (if any) the canvas timer is currently bound to:
`Handler.none` after `__init__`/`stopAnimate`, `Handler.initial` after
`Bind(wx.EVT_TIMER, self.onInitialTimer)` (the growing phase),
`Handler.sliding` after `Bind(wx.EVT_TIMER, self.onTimer)` (the sliding
phase). -/
inductive Handler where
  | none
  | initial
  | sliding
deriving DecidableEq

/-- The drawing-engine state: the fields of class `MyGLCanvas` of
src/lissajous.py that the animation logic reads or writes.  The viewport
size returned by `GetClientSize()` is external input, so the handlers
below take the width and height as arguments instead. -/
structure MyGLCanvas where
  timerStep : ℕ
  scale : ℝ
  cycles : ℕ
  numPointsFrozen : ℕ
  points : List Pt
  colours : List Colour
  numPointsToAnimate : ℕ
  animationTimestep : ℝ
  currentTimestep : ℝ
  numPoints : ℕ
  bFrozen : Bool
  bInitialised : Bool
  handler : Handler

/-- `MyGLCanvas.__init__`: `timerStep = 10`, `scale = 0.75`,
`cycles = 10`, `numPointsFrozen = 1000 * cycles + 1`,
`points = np.zeros((numPointsFrozen, 2))`,
`colours = np.zeros((numPointsFrozen, 3))`, `numPointsToAnimate = 1000`,
`animationTimestep = 2 * pi / 1000`, `currentTimestep = 0`,
`numPoints = 0`, `bFrozen = True`, `bInitialised = False`; the timer is
created but not started. -/
def mkCanvas : MyGLCanvas :=
  { timerStep := 10
    scale := 0.75
    cycles := 10
    numPointsFrozen := 1000 * 10 + 1
    points := List.replicate (1000 * 10 + 1) (0, 0)
    colours := List.replicate (1000 * 10 + 1) (0, 0, 0)
    numPointsToAnimate := 1000
    animationTimestep := 2 * π / 1000
    currentTimestep := 0
    numPoints := 0
    bFrozen := true
    bInitialised := false
    handler := Handler.none }

/-- Sample `i` of `np.linspace(a, b, n)` (with the default
`endpoint=True`): `a + (b - a) * i / (n - 1)`, and the start value `a`
when there is at most one sample. -/
def linVal (a b : ℝ) (n i : ℕ) : ℝ :=
  if n ≤ 1 then a else a + (b - a) * (i : ℝ) / ((n : ℝ) - 1)

/-- `np.linspace(a, b, n)` (with the default `endpoint=True`): `n`
evenly spaced samples from `a` to `b` inclusive; for `n = 1` NumPy
returns just `[a]`. -/
def linspace (a b : ℝ) (n : ℕ) : List ℝ :=
  (List.range n).map (linVal a b n)

/-- The grey level NumPy assigns to row `i` of
`np.linspace((0,0,0), (1,1,1), n)`: `i / (n - 1)`, and the start value
`0` when there is at most one row. -/
def greyVal (n i : ℕ) : ℝ :=
  if n ≤ 1 then 0 else (i : ℝ) / ((n : ℝ) - 1)

/-- `np.linspace((0,0,0), (1,1,1), n)`: the colour gradient used by the
growing phase; row `i` is the grey level `i / (n - 1)` in each of the
three channels (row `(0,0,0)` for `n = 1`). -/
def colourGradient (n : ℕ) : List Colour :=
  (List.range n).map fun i => (greyVal n i, greyVal n i, greyVal n i)

/-- `np.roll(a, (-1, -1))` on an `(n, 2)` array: NumPy flattens the
array, shifts it by `(-1) + (-1) = -2` positions, and restores the
shape, which rotates the rows left by exactly one (row 0 wraps around to
the end). -/
def roll1 : List Pt → List Pt
  | [] => []
  | p :: rest => rest ++ [p]

/-- `MyGLCanvas.initialiseGLFrozen`: rebuild `points` by sampling the
curve at `numPointsFrozen` values of `t` evenly spaced over
`[0, 2 * cycles * pi]` (scaled by the viewport), set every colour to
white (`np.ones`), and mark the canvas initialised.  The loop calls
`updateLissajous` once per sample; since that update depends only on the
(unchanged) parameters and on `t`, the per-sample results are the mapped
values below and the final curve-model state is the update at the last
sample. -/
def initialiseGLFrozen (lis : Lissajous) (w h : ℝ) (c : MyGLCanvas) :
    Lissajous × MyGLCanvas :=
  let ts := linspace 0 (2 * (c.cycles : ℝ) * π) c.numPointsFrozen
  let pts := ts.map fun t =>
    let l := updateLissajous lis t
    (l.x * w * c.scale, l.y * h * c.scale)
  let lisFinal := match ts.getLast? with
    | some t => updateLissajous lis t
    | Option.none => lis
  (lisFinal,
    { c with
        points := pts
        colours := List.replicate c.numPointsFrozen (1, 1, 1)
        numPoints := c.numPointsFrozen
        bInitialised := true })

/-- `MyGLCanvas.initialiseGLAnimate`: reset `points` to the single first
vertex sampled at `currentTimestep = animationTimestep`, reset `colours`
to one white row (`np.ones((1, 3))`), set `numPoints = 1`, mark the
canvas initialised, and start the timer bound to `onInitialTimer`. -/
def initialiseGLAnimate (lis : Lissajous) (w h : ℝ) (c : MyGLCanvas) :
    Lissajous × MyGLCanvas :=
  let ct := c.animationTimestep
  let l := updateLissajous lis ct
  (l,
    { c with
        points := [(l.x * w * c.scale, l.y * h * c.scale)]
        colours := [(1, 1, 1)]
        currentTimestep := ct
        numPoints := 1
        bInitialised := true
        handler := Handler.initial })

/-- `MyGLCanvas.onInitialTimer` (growing-phase tick).  With
`numStepsSoFar = len(points)`: if still below `numPointsToAnimate`,
advance `currentTimestep` by `animationTimestep`, append the new scaled
sample to `points`, and rebuild `colours` as the black-to-white gradient
over the new length.  Otherwise stop the growing timer, truncate
`points` to `numPointsToAnimate` rows if it is longer, rebuild `colours`
as the fixed gradient of length `numPointsToAnimate`, and rebind the
timer to `onTimer` (the sliding phase). -/
def onInitialTimer (lis : Lissajous) (w h : ℝ) (c : MyGLCanvas) :
    Lissajous × MyGLCanvas :=
  let wScale := w * c.scale
  let hScale := h * c.scale
  let n := c.points.length
  if n < c.numPointsToAnimate then
    let ct := c.currentTimestep + c.animationTimestep
    let l := updateLissajous lis ct
    (l,
      { c with
          currentTimestep := ct
          points := c.points ++ [(l.x * wScale, l.y * hScale)]
          colours := colourGradient (n + 1)
          numPoints := n + 1 })
  else
    (lis,
      { c with
          points :=
            if c.numPointsToAnimate < n then c.points.take c.numPointsToAnimate
            else c.points
          colours := colourGradient c.numPointsToAnimate
          numPoints := c.numPointsToAnimate
          handler := Handler.sliding })

/-- `MyGLCanvas.onTimer` (sliding-phase tick): advance `currentTimestep`
by `animationTimestep`, rotate `points` left by one with
`np.roll(points, (-1, -1))`, and overwrite the last row (`points[-1]`)
with the new scaled sample.  `colours` is not touched. -/
def onTimer (lis : Lissajous) (w h : ℝ) (c : MyGLCanvas) :
    Lissajous × MyGLCanvas :=
  let ct := c.currentTimestep + c.animationTimestep
  let l := updateLissajous lis ct
  let rolled := roll1 c.points
  (l,
    { c with
        currentTimestep := ct
        points := rolled.dropLast ++ [(l.x * w * c.scale, l.y * h * c.scale)] })

/-- `MyGLCanvas.stopAnimate`: stop the timer and unbind its handler. -/
def stopAnimate (c : MyGLCanvas) : MyGLCanvas :=
  { c with handler := Handler.none }

/-- `MyGLCanvas.initialiseGL`: after the GL viewport setup, dispatch on
the mode flag to the matching buffer initialisation. -/
def initialiseGL (lis : Lissajous) (w h : ℝ) (c : MyGLCanvas) :
    Lissajous × MyGLCanvas :=
  if c.bFrozen then initialiseGLFrozen lis w h c
  else initialiseGLAnimate lis w h c

/-- `MyGLCanvas.onPaint` (state effect only): if the canvas is not
initialised, run `initialiseGL`; the draw calls change no engine
state. -/
def onPaint (lis : Lissajous) (w h : ℝ) (c : MyGLCanvas) :
    Lissajous × MyGLCanvas :=
  if c.bInitialised then (lis, c) else initialiseGL lis w h c

/-- `Control.onXSlider`: store the new x frequency in the shared
`Lissajous` object and force reinitialisation of the canvas on the next
paint (`bInitialised = False`; `Refresh()` posts that paint event). -/
def onXSlider (v : ℝ) (lis : Lissajous) (c : MyGLCanvas) :
    Lissajous × MyGLCanvas :=
  ({ lis with xFreq := v }, { c with bInitialised := false })

/-- `Control.onAnimationButtons` on the animate on/off button:
`stopAnimate`, set `bFrozen` from the button state, and force
reinitialisation on the next paint.  This is the engine's `setMode`. -/
def setMode (frozen : Bool) (c : MyGLCanvas) : MyGLCanvas :=
  { stopAnimate c with bFrozen := frozen, bInitialised := false }

/-- `Control.onAnimationButtons` on the reset button: `stopAnimate`,
leave `bFrozen` unchanged, and force reinitialisation on the next
paint. -/
def onAnimationButtonsReset (c : MyGLCanvas) : MyGLCanvas :=
  { stopAnimate c with bInitialised := false }

/-- The canvas-side effect shared by `Control.onXSlider`,
`Control.onYSlider` and `Control.onDeltaSlider` after the new parameter
has been stored in the shared `Lissajous` object: force
reinitialisation of the canvas on the next paint. -/
def onParametersChanged (c : MyGLCanvas) : MyGLCanvas :=
  { c with bInitialised := false }

/-- One growing-phase timer event delivered to the canvas, as a step
function on the joint curve-model / canvas state. -/
def initialTick (w h : ℝ) (s : Lissajous × MyGLCanvas) :
    Lissajous × MyGLCanvas :=
  onInitialTimer s.1 w h s.2

/-! ### src/lissajousSimple.py -/

/-- The boolean names reachable from src/lissajousSimple.py when line 11
executes: Python's builtin literals `True` and `False`.  The script
itself binds no other boolean name before that line. -/
def boolScope : List (String × Bool) := [("True", true), ("False", false)]

/-- Python name resolution for a boolean-valued name: a case-sensitive
lookup that raises `NameError` when the name is unbound. -/
def lookupBool (n : String) : Except String Bool :=
  match boolScope.find? (fun p => p.1 == n) with
  | some p => Except.ok p.2
  | Option.none => Except.error ("NameError: name " ++ n ++ " is not defined")

/-- `np.linspace(a, b, n, endpoint=ep)`: with `endpoint=False` the
samples are `a + (b - a) * i / n` for `i < n`. -/
def linspaceEndpoint (a b : ℝ) (n : ℕ) (ep : Bool) : List ℝ :=
  if ep then linspace a b n
  else (List.range n).map fun i : ℕ => a + (b - a) * (i : ℝ) / (n : ℝ)

/-- The whole of src/lissajousSimple.py as one computation: line 11
evaluates `np.linspace(0, 2 * np.pi, 1000, endpoint=false)`, whose
keyword argument is the plain name `false`; only if that name resolves
are the curve values `x = np.sin(t)`, `y = np.sin(2 * t)` computed. -/
def runLissajousSimple : Except String (List (ℝ × ℝ)) :=
  match lookupBool "false" with
  | Except.error e => Except.error e
  | Except.ok ep =>
    let t := linspaceEndpoint 0 (2 * π) 1000 ep
    Except.ok ((t.map Real.sin).zip (t.map fun v => Real.sin (2 * v)))

/-- Pointwise order on colours: every channel is at most the other's. -/
def colourLE (a b : Colour) : Prop :=
  a.1 ≤ b.1 ∧ a.2.1 ≤ b.2.1 ∧ a.2.2 ≤ b.2.2

/-- Strict pointwise order on colours: every channel is strictly below
the other's ("strictly colder"). -/
def colourLT (a b : Colour) : Prop :=
  a.1 < b.1 ∧ a.2.1 < b.2.1 ∧ a.2.2 < b.2.2

/-- Concrete curve-model state used by the witnesses: frequencies 1 and
1, zero phase shift. -/
def lis0 : Lissajous := Lissajous.mk 0 0 1 1 0

/-- Concrete canvas holding 1001 points, one more than
`numPointsToAnimate`: an overshot growing buffer. -/
def cOver : MyGLCanvas := { mkCanvas with points := List.replicate 1001 (0, 0) }

/-- Concrete canvas holding exactly `numPointsToAnimate = 1000` points:
a sliding-phase buffer. -/
def cFull : MyGLCanvas :=
  { mkCanvas with
      points := List.replicate 1000 (0, 0)
      colours := colourGradient 1000
      numPoints := 1000
      bFrozen := false
      bInitialised := true
      handler := Handler.sliding }

/-- Concrete growing-phase canvas holding one point, with
`currentTimestep` equal to one animation step. -/
def cGrow1 : MyGLCanvas :=
  { mkCanvas with
      points := [(0, 0)]
      colours := [(1, 1, 1)]
      currentTimestep := 2 * π / 1000
      numPoints := 1
      bFrozen := false
      bInitialised := true
      handler := Handler.initial }

/-! ### Helper lemmas about the engine steps -/

lemma getD_range_map {α : Type} (f : ℕ → α) (n i : ℕ) (hi : i < n) (d : α) :
    ((List.range n).map f).getD i d = f i := by
  simp [List.getD_eq_getElem?_getD, List.getElem?_map, List.getElem?_range hi]

lemma length_linspace (a b : ℝ) (n : ℕ) : (linspace a b n).length = n := by
  rw [linspace, List.length_map, List.length_range]

lemma initialiseGLFrozen_points_getD (lis : Lissajous) (w h : ℝ)
    (c : MyGLCanvas) (i : ℕ) (hi : i < c.numPointsFrozen) (d : Pt) :
    (initialiseGLFrozen lis w h c).2.points.getD i d =
      (Real.sin (lis.xFreq * linVal 0 (2 * (c.cycles : ℝ) * π) c.numPointsFrozen i) *
          w * c.scale,
        Real.sin (lis.yFreq * linVal 0 (2 * (c.cycles : ℝ) * π) c.numPointsFrozen i +
            lis.delta) * h * c.scale) := by
  simp only [initialiseGLFrozen, linspace, List.map_map, updateLissajous]
  rw [getD_range_map _ _ _ hi]
  simp [Function.comp]

lemma length_colourGradient (n : ℕ) : (colourGradient n).length = n := by
  rw [colourGradient, List.length_map, List.length_range]

lemma greyVal_mono (n i j : ℕ) (hij : i ≤ j) : greyVal n i ≤ greyVal n j := by
  unfold greyVal
  by_cases hn : n ≤ 1
  · simp [hn]
  · have hc : (0 : ℝ) ≤ (n : ℝ) - 1 := by
      have h1 : (1 : ℝ) ≤ (n : ℝ) := by exact_mod_cast (by omega : 1 ≤ n)
      linarith
    have hij' : (i : ℝ) ≤ (j : ℝ) := by exact_mod_cast hij
    simp only [hn, if_false]
    exact div_le_div_of_nonneg_right hij' hc

lemma colourGradient_getD (n i : ℕ) (hi : i < n) (d : Colour) :
    (colourGradient n).getD i d = (greyVal n i, greyVal n i, greyVal n i) := by
  simp [colourGradient, List.getD_eq_getElem?_getD, List.getElem?_map,
    List.getElem?_range hi]

lemma greyVal_zero (n : ℕ) (hn : 2 ≤ n) : greyVal n 0 = 0 := by
  have h1 : ¬ n ≤ 1 := by omega
  simp [greyVal, h1]

lemma greyVal_last (n : ℕ) (hn : 2 ≤ n) : greyVal n (n - 1) = 1 := by
  have h1 : ¬ n ≤ 1 := by omega
  have hcast : ((n - 1 : ℕ) : ℝ) = (n : ℝ) - 1 := by
    push_cast [Nat.cast_sub (by omega : 1 ≤ n)]
    ring
  have hpos : (n : ℝ) - 1 ≠ 0 := by
    have h2 : (2 : ℝ) ≤ (n : ℝ) := by exact_mod_cast hn
    linarith
  simp [greyVal, h1, hcast, div_self hpos]

lemma initialTick_grow (w h : ℝ) (s : Lissajous × MyGLCanvas)
    (hlt : s.2.points.length < s.2.numPointsToAnimate) :
    (initialTick w h s).2.points.length = s.2.points.length + 1 ∧
    (initialTick w h s).2.numPointsToAnimate = s.2.numPointsToAnimate ∧
    (initialTick w h s).2.handler = s.2.handler := by
  simp [initialTick, onInitialTimer, hlt]

lemma iterate_initialTick_growing (w h : ℝ) :
    ∀ (j : ℕ) (s : Lissajous × MyGLCanvas),
      s.2.points.length + j ≤ s.2.numPointsToAnimate →
      ((initialTick w h)^[j] s).2.points.length = s.2.points.length + j ∧
      ((initialTick w h)^[j] s).2.numPointsToAnimate = s.2.numPointsToAnimate ∧
      ((initialTick w h)^[j] s).2.handler = s.2.handler
  | 0, s, _ => by simp
  | j + 1, s, hle => by
    have hlt : s.2.points.length < s.2.numPointsToAnimate := by omega
    obtain ⟨g1, g2, g3⟩ := initialTick_grow w h s hlt
    have hrec := iterate_initialTick_growing w h j (initialTick w h s)
      (by rw [g1, g2]; omega)
    rw [Function.iterate_succ_apply]
    obtain ⟨r1, r2, r3⟩ := hrec
    exact ⟨by rw [r1, g1]; omega, by rw [r2, g2], by rw [r3, g3]⟩

lemma onInitialTimer_finish (lis : Lissajous) (w h : ℝ) (c : MyGLCanvas)
    (hge : c.numPointsToAnimate ≤ c.points.length) :
    (onInitialTimer lis w h c).2.points.length = c.numPointsToAnimate ∧
    (onInitialTimer lis w h c).2.handler = Handler.sliding ∧
    (onInitialTimer lis w h c).2.colours = colourGradient c.numPointsToAnimate := by
  have hnlt : ¬ c.points.length < c.numPointsToAnimate := by omega
  refine ⟨?_, by simp [onInitialTimer, hnlt], by simp [onInitialTimer, hnlt]⟩
  by_cases hc : c.numPointsToAnimate < c.points.length
  · simp [onInitialTimer, hnlt, hc]
    omega
  · simp [onInitialTimer, hnlt, hc]
    omega

lemma initialTick_finish (w h : ℝ) (s : Lissajous × MyGLCanvas)
    (hge : s.2.numPointsToAnimate ≤ s.2.points.length) :
    (initialTick w h s).2.points.length = s.2.numPointsToAnimate ∧
    (initialTick w h s).2.handler = Handler.sliding ∧
    (initialTick w h s).2.colours = colourGradient s.2.numPointsToAnimate :=
  onInitialTimer_finish s.1 w h s.2 hge

lemma roll1_dropLast_concat (l : List Pt) (v : Pt) (hne : l ≠ []) :
    (roll1 l).dropLast ++ [v] = l.tail ++ [v] := by
  cases l with
  | nil => exact absurd rfl hne
  | cons p rest => simp [roll1, List.dropLast_concat]

/-! ### Claims -/

/-- C1: entering animated mode and delivering exactly 1000 growing-phase
ticks leaves the timer bound to the sliding handler with exactly 1000
buffered points; and any growing-phase tick that finds the buffer longer
than `numPointsToAnimate` truncates it to exactly `numPointsToAnimate`
and still hands over to the sliding phase. -/
theorem animate_thousand_ticks_sliding (lis lis₂ : Lissajous)
    (w h w₂ h₂ : ℝ) (c c₂ : MyGLCanvas)
    (hN : c.numPointsToAnimate = 1000)
    (hover : c₂.numPointsToAnimate < c₂.points.length) :
    ((initialTick w h)^[1000] (initialiseGLAnimate lis w h c)).2.handler =
        Handler.sliding ∧
    ((initialTick w h)^[1000] (initialiseGLAnimate lis w h c)).2.points.length =
        1000 ∧
    (onInitialTimer lis₂ w₂ h₂ c₂).2.points.length = c₂.numPointsToAnimate ∧
    (onInitialTimer lis₂ w₂ h₂ c₂).2.handler = Handler.sliding := by
  have h0len : (initialiseGLAnimate lis w h c).2.points.length = 1 := by
    simp [initialiseGLAnimate]
  have h0N : (initialiseGLAnimate lis w h c).2.numPointsToAnimate = 1000 := by
    simp [initialiseGLAnimate, hN]
  obtain ⟨e1, e2, e3⟩ := iterate_initialTick_growing w h 999
    (initialiseGLAnimate lis w h c) (by rw [h0len, h0N])
  obtain ⟨f1, f2, f3⟩ := initialTick_finish w h
    ((initialTick w h)^[999] (initialiseGLAnimate lis w h c))
    (by rw [e1, e2, h0len, h0N])
  obtain ⟨o1, o2, _⟩ := onInitialTimer_finish lis₂ w₂ h₂ c₂ (le_of_lt hover)
  have key : (initialTick w h)^[1000] (initialiseGLAnimate lis w h c) =
      initialTick w h ((initialTick w h)^[999] (initialiseGLAnimate lis w h c)) :=
    Function.iterate_succ_apply' (initialTick w h) 999 _
  refine ⟨?_, ?_, o1, o2⟩
  · rw [key]
    exact f2
  · rw [key]
    exact f1.trans (e2.trans h0N)

/-- Witness for C1 at the initial canvas and at a concrete overshot
canvas with 1001 points. -/
theorem animate_thousand_ticks_sliding_witness :
    mkCanvas.numPointsToAnimate = 1000 ∧
    cOver.numPointsToAnimate < cOver.points.length ∧
    (((initialTick 1 1)^[1000] (initialiseGLAnimate lis0 1 1 mkCanvas)).2.handler =
        Handler.sliding ∧
      ((initialTick 1 1)^[1000]
          (initialiseGLAnimate lis0 1 1 mkCanvas)).2.points.length = 1000 ∧
      (onInitialTimer lis0 1 1 cOver).2.points.length = cOver.numPointsToAnimate ∧
      (onInitialTimer lis0 1 1 cOver).2.handler = Handler.sliding) :=
  ⟨rfl, by norm_num [cOver, mkCanvas, List.length_replicate],
    animate_thousand_ticks_sliding lis0 lis0 1 1 1 1 mkCanvas cOver rfl
      (by norm_num [cOver, mkCanvas, List.length_replicate])⟩

/-- C2: a sliding-phase tick on a full buffer drops the point at index 0,
shifts every other point down one slot, writes the sample taken at
`t = currentTimestep + animationTimestep` into the last slot, and keeps
the buffer length at exactly `numPointsToAnimate`. -/
theorem onTimer_slides (lis : Lissajous) (w h : ℝ) (c : MyGLCanvas)
    (hlen : c.points.length = c.numPointsToAnimate)
    (hpos : 0 < c.numPointsToAnimate) :
    (onTimer lis w h c).2.points =
      c.points.tail ++
        [(Real.sin (lis.xFreq * (c.currentTimestep + c.animationTimestep)) * w *
            c.scale,
          Real.sin (lis.yFreq * (c.currentTimestep + c.animationTimestep) +
              lis.delta) * h * c.scale)] ∧
    (onTimer lis w h c).2.points.length = c.numPointsToAnimate ∧
    (onTimer lis w h c).2.currentTimestep =
      c.currentTimestep + c.animationTimestep := by
  have hne : c.points ≠ [] := by
    intro h0
    rw [h0] at hlen
    simp at hlen
    omega
  have hpts : (onTimer lis w h c).2.points =
      c.points.tail ++
        [(Real.sin (lis.xFreq * (c.currentTimestep + c.animationTimestep)) * w *
            c.scale,
          Real.sin (lis.yFreq * (c.currentTimestep + c.animationTimestep) +
              lis.delta) * h * c.scale)] := by
    simp only [onTimer, updateLissajous]
    exact roll1_dropLast_concat _ _ hne
  refine ⟨hpts, ?_, rfl⟩
  rw [hpts]
  simp [List.length_tail]
  omega

/-- Witness for C2 at a concrete full sliding-phase canvas. -/
theorem onTimer_slides_witness :
    cFull.points.length = cFull.numPointsToAnimate ∧
    0 < cFull.numPointsToAnimate ∧
    ((onTimer lis0 1 1 cFull).2.points =
        cFull.points.tail ++
          [(Real.sin (lis0.xFreq * (cFull.currentTimestep + cFull.animationTimestep)) *
              1 * cFull.scale,
            Real.sin (lis0.yFreq * (cFull.currentTimestep + cFull.animationTimestep) +
                lis0.delta) * 1 * cFull.scale)] ∧
      (onTimer lis0 1 1 cFull).2.points.length = cFull.numPointsToAnimate ∧
      (onTimer lis0 1 1 cFull).2.currentTimestep =
        cFull.currentTimestep + cFull.animationTimestep) :=
  ⟨by norm_num [cFull, mkCanvas, List.length_replicate],
    by norm_num [cFull, mkCanvas],
    onTimer_slides lis0 1 1 cFull
      (by norm_num [cFull, mkCanvas, List.length_replicate])
      (by norm_num [cFull, mkCanvas])⟩

/-- C7: after each completed buffer mutation of the engine — frozen-mode
generation, animated-mode reset, any growing-phase tick (including the
one that hands over to the sliding phase), and any sliding-phase tick on
a consistent non-empty state — `colours` and `points` have the same
length. -/
theorem colours_points_equal_length (lis : Lissajous) (w h : ℝ)
    (cf ca cg cs : MyGLCanvas)
    (hpre : cs.colours.length = cs.points.length) (hne : cs.points ≠ []) :
    (initialiseGLFrozen lis w h cf).2.colours.length =
        (initialiseGLFrozen lis w h cf).2.points.length ∧
    (initialiseGLAnimate lis w h ca).2.colours.length =
        (initialiseGLAnimate lis w h ca).2.points.length ∧
    (onInitialTimer lis w h cg).2.colours.length =
        (onInitialTimer lis w h cg).2.points.length ∧
    (onTimer lis w h cs).2.colours.length =
        (onTimer lis w h cs).2.points.length := by
  refine ⟨?_, ?_, ?_, ?_⟩
  · simp only [initialiseGLFrozen, List.length_replicate, List.length_map,
      length_linspace]
  · simp [initialiseGLAnimate]
  · by_cases hlt : cg.points.length < cg.numPointsToAnimate
    · simp [onInitialTimer, hlt, length_colourGradient]
    · obtain ⟨p1, _, p3⟩ := onInitialTimer_finish lis w h cg (by omega)
      rw [p1, p3, length_colourGradient]
  · have hpts := roll1_dropLast_concat cs.points
      ((Real.sin (lis.xFreq * (cs.currentTimestep + cs.animationTimestep)) * w *
          cs.scale,
        Real.sin (lis.yFreq * (cs.currentTimestep + cs.animationTimestep) +
            lis.delta) * h * cs.scale)) hne
    have hlen : (onTimer lis w h cs).2.points.length = cs.points.length := by
      have : (onTimer lis w h cs).2.points =
          cs.points.tail ++
            [(Real.sin (lis.xFreq * (cs.currentTimestep + cs.animationTimestep)) *
                w * cs.scale,
              Real.sin (lis.yFreq * (cs.currentTimestep + cs.animationTimestep) +
                  lis.delta) * h * cs.scale)] := by
        simp only [onTimer, updateLissajous]
        exact hpts
      rw [this]
      have hne' : cs.points.length ≠ 0 := by
        intro h0
        exact hne (List.length_eq_zero.mp h0)
      simp [List.length_tail]
      omega
    have hcol : (onTimer lis w h cs).2.colours = cs.colours := rfl
    rw [hlen, hcol, hpre]

/-- Witness for C7 at concrete canvases; the sliding-phase canvas is the
consistent full buffer `cFull`. -/
theorem colours_points_equal_length_witness :
    cFull.colours.length = cFull.points.length ∧
    cFull.points ≠ [] ∧
    ((initialiseGLFrozen lis0 1 1 mkCanvas).2.colours.length =
        (initialiseGLFrozen lis0 1 1 mkCanvas).2.points.length ∧
      (initialiseGLAnimate lis0 1 1 mkCanvas).2.colours.length =
        (initialiseGLAnimate lis0 1 1 mkCanvas).2.points.length ∧
      (onInitialTimer lis0 1 1 mkCanvas).2.colours.length =
        (onInitialTimer lis0 1 1 mkCanvas).2.points.length ∧
      (onTimer lis0 1 1 cFull).2.colours.length =
        (onTimer lis0 1 1 cFull).2.points.length) :=
  ⟨by simp only [cFull, mkCanvas, length_colourGradient, List.length_replicate],
    by simp only [cFull, mkCanvas]; simp,
    colours_points_equal_length lis0 1 1 mkCanvas mkCanvas mkCanvas cFull
      (by simp only [cFull, mkCanvas, length_colourGradient, List.length_replicate])
      (by simp only [cFull, mkCanvas]; simp)⟩

/-- C5: for every curve state and every time `t`, `updateLissajous`
yields exactly `x = sin(xFreq * t)` and `y = sin(yFreq * t + delta)`,
and both coordinates have absolute value at most 1. -/
theorem updateLissajous_formula_and_bounded (s : Lissajous) (t : ℝ) :
    (updateLissajous s t).x = Real.sin (s.xFreq * t) ∧
    (updateLissajous s t).y = Real.sin (s.yFreq * t + s.delta) ∧
    |(updateLissajous s t).x| ≤ 1 ∧ |(updateLissajous s t).y| ≤ 1 := by
  refine ⟨rfl, rfl, ?_, ?_⟩ <;>
    simp [updateLissajous, abs_le, Real.neg_one_le_sin, Real.sin_le_one]

/-- C9: the curve evaluation is deterministic and carries no hidden
state: two `Lissajous` states agreeing on the parameters `xFreq`,
`yFreq`, `delta` (but with arbitrary previously stored `x`, `y`) produce
identical outputs at every time `t`. -/
theorem updateLissajous_deterministic (s₁ s₂ : Lissajous) (t : ℝ)
    (hx : s₁.xFreq = s₂.xFreq) (hy : s₁.yFreq = s₂.yFreq)
    (hd : s₁.delta = s₂.delta) :
    (updateLissajous s₁ t).x = (updateLissajous s₂ t).x ∧
    (updateLissajous s₁ t).y = (updateLissajous s₂ t).y := by
  simp [updateLissajous, hx, hy, hd]

/-- Witness for C9 at two concrete states that differ in their stored
`x`, `y` values but share the parameters. -/
theorem updateLissajous_deterministic_witness :
    (Lissajous.mk 5 7 1 2 3).xFreq = (Lissajous.mk 0 0 1 2 3).xFreq ∧
    (Lissajous.mk 5 7 1 2 3).yFreq = (Lissajous.mk 0 0 1 2 3).yFreq ∧
    (Lissajous.mk 5 7 1 2 3).delta = (Lissajous.mk 0 0 1 2 3).delta ∧
    ((updateLissajous (Lissajous.mk 5 7 1 2 3) 4).x =
        (updateLissajous (Lissajous.mk 0 0 1 2 3) 4).x ∧
      (updateLissajous (Lissajous.mk 5 7 1 2 3) 4).y =
        (updateLissajous (Lissajous.mk 0 0 1 2 3) 4).y) :=
  ⟨rfl, rfl, rfl,
    updateLissajous_deterministic (Lissajous.mk 5 7 1 2 3)
      (Lissajous.mk 0 0 1 2 3) 4 rfl rfl rfl⟩

/-- C10: src/lissajousSimple.py fails on every run: line 11 uses the
unbound name `false` (Python's literal is `False`), so the script raises
`NameError` before any curve value is computed. -/
theorem runLissajousSimple_always_fails :
    runLissajousSimple = Except.error "NameError: name false is not defined" :=
  rfl

/-- C8: every growing-phase tick leaves `colours` equal to the
black-to-white gradient over the resulting buffer length; that gradient
is monotone in the buffer index, with index 0 strictly colder than index
`n - 1` whenever the length is at least 2; and a sliding-phase tick
leaves `colours` untouched. -/
theorem colours_monotone_growing_frozen_sliding (lis lisS : Lissajous)
    (w h ws hs : ℝ) (c cs : MyGLCanvas) (n i j : ℕ)
    (hij : i ≤ j) (hj : j < n) (hn : 2 ≤ n) :
    (onInitialTimer lis w h c).2.colours =
      colourGradient ((onInitialTimer lis w h c).2.points.length) ∧
    colourLE ((colourGradient n).getD i (0, 0, 0))
      ((colourGradient n).getD j (0, 0, 0)) ∧
    colourLT ((colourGradient n).getD 0 (0, 0, 0))
      ((colourGradient n).getD (n - 1) (0, 0, 0)) ∧
    (onTimer lisS ws hs cs).2.colours = cs.colours := by
  refine ⟨?_, ?_, ?_, rfl⟩
  · by_cases hlt : c.points.length < c.numPointsToAnimate
    · simp [onInitialTimer, hlt]
    · obtain ⟨p1, _, p3⟩ := onInitialTimer_finish lis w h c (by omega)
      rw [p3, p1]
  · rw [colourGradient_getD n i (lt_of_le_of_lt hij hj),
      colourGradient_getD n j hj]
    exact ⟨greyVal_mono n i j hij, greyVal_mono n i j hij, greyVal_mono n i j hij⟩
  · rw [colourGradient_getD n 0 (by omega), colourGradient_getD n (n - 1) (by omega),
      greyVal_zero n hn, greyVal_last n hn]
    exact ⟨by norm_num, by norm_num, by norm_num⟩

/-- Witness for C8 with a gradient of length 2 at indices 0 and 1. -/
theorem colours_monotone_growing_frozen_sliding_witness :
    (0 : ℕ) ≤ 1 ∧ (1 : ℕ) < 2 ∧ (2 : ℕ) ≤ 2 ∧
    ((onInitialTimer lis0 1 1 mkCanvas).2.colours =
        colourGradient ((onInitialTimer lis0 1 1 mkCanvas).2.points.length) ∧
      colourLE ((colourGradient 2).getD 0 (0, 0, 0))
        ((colourGradient 2).getD 1 (0, 0, 0)) ∧
      colourLT ((colourGradient 2).getD 0 (0, 0, 0))
        ((colourGradient 2).getD (2 - 1) (0, 0, 0)) ∧
      (onTimer lis0 1 1 cFull).2.colours = cFull.colours) :=
  ⟨by norm_num, by norm_num, by norm_num,
    colours_monotone_growing_frozen_sliding lis0 lis0 1 1 1 1 mkCanvas cFull
      2 0 1 (by norm_num) (by norm_num) (by norm_num)⟩

/-- C6: with `xFrequency = 1`, `yFrequency = 1`, `phaseOffset = 0`,
frozen-mode generation produces in one step a buffer of exactly
`1000 * 10 + 1 = 10001` points with one uniform white colour per point;
its first point is `(0, 0)` and its sample at `t = pi / 2` (index 250)
is `(1, 1)` scaled by the viewport factors `w * 0.75`, `h * 0.75`. -/
theorem frozen_mode_scenario (x0 y0 w h : ℝ) :
    (initialiseGLFrozen (Lissajous.mk x0 y0 1 1 0) w h mkCanvas).2.points.length =
      10001 ∧
    (initialiseGLFrozen (Lissajous.mk x0 y0 1 1 0) w h mkCanvas).2.colours =
      List.replicate 10001 ((1 : ℝ), (1 : ℝ), (1 : ℝ)) ∧
    (initialiseGLFrozen (Lissajous.mk x0 y0 1 1 0) w h mkCanvas).2.points.getD 0
        (0, 0) = ((0 : ℝ), (0 : ℝ)) ∧
    (initialiseGLFrozen (Lissajous.mk x0 y0 1 1 0) w h mkCanvas).2.points.getD 250
        (0, 0) = (w * 0.75, h * 0.75) := by
  have hcy : mkCanvas.cycles = 10 := rfl
  have hnf : mkCanvas.numPointsFrozen = 1000 * 10 + 1 := rfl
  have hsc : mkCanvas.scale = (0.75 : ℝ) := rfl
  refine ⟨?_, ?_, ?_, ?_⟩
  · simp only [initialiseGLFrozen, List.length_map, length_linspace]
    rfl
  · rfl
  · rw [initialiseGLFrozen_points_getD _ _ _ _ 0
      (by norm_num [show mkCanvas.numPointsFrozen = 10001 from rfl]) _]
    have ht : linVal 0 (2 * (mkCanvas.cycles : ℝ) * π) mkCanvas.numPointsFrozen 0 =
        0 := by
      rw [hcy, hnf]
      norm_num [linVal]
    rw [ht]
    norm_num
  · rw [initialiseGLFrozen_points_getD _ _ _ _ 250
      (by norm_num [show mkCanvas.numPointsFrozen = 10001 from rfl]) _]
    have ht : linVal 0 (2 * (mkCanvas.cycles : ℝ) * π) mkCanvas.numPointsFrozen 250 =
        π / 2 := by
      rw [hcy, hnf]
      norm_num [linVal]
      ring
    rw [ht, hsc]
    norm_num [Real.sin_pi_div_two]

/-- C4 counterexample: switching into animated mode does not leave the
point buffer empty — at a concrete state the buffer already holds one
point (the sample at `t = animationTimestep`). -/
theorem initialiseGLAnimate_not_empty :
    ¬ (initialiseGLAnimate lis0 1 1 mkCanvas).2.points.length = 0 := by
  simp [initialiseGLAnimate]

/-- C4 (amended): switching into animated mode resets the engine to the
growing phase holding exactly one point, sampled at
`t = 1 * animationTimestep`; and a growing-phase tick on a buffer of `k`
points (with `currentTimestep = k * animationTimestep`, `k` below the
tail capacity) appends exactly one point sampled at
`t = (k + 1) * animationTimestep`, giving point and colour buffers of
length `k + 1`. -/
theorem initialiseGLAnimate_one_point_then_grow (lis lis₂ : Lissajous)
    (w h w₂ h₂ : ℝ) (c c₂ : MyGLCanvas) (k : ℕ)
    (hk : c₂.points.length = k)
    (hct : c₂.currentTimestep = (k : ℝ) * c₂.animationTimestep)
    (hlt : k < c₂.numPointsToAnimate) :
    (initialiseGLAnimate lis w h c).2.handler = Handler.initial ∧
    (initialiseGLAnimate lis w h c).2.points =
      [(Real.sin (lis.xFreq * ((1 : ℝ) * c.animationTimestep)) * w * c.scale,
        Real.sin (lis.yFreq * ((1 : ℝ) * c.animationTimestep) + lis.delta) * h *
          c.scale)] ∧
    (initialiseGLAnimate lis w h c).2.points.length = 1 ∧
    (initialiseGLAnimate lis w h c).2.currentTimestep =
      (1 : ℝ) * c.animationTimestep ∧
    (onInitialTimer lis₂ w₂ h₂ c₂).2.points =
      c₂.points ++
        [(Real.sin (lis₂.xFreq * (((k : ℝ) + 1) * c₂.animationTimestep)) *
            (w₂ * c₂.scale),
          Real.sin (lis₂.yFreq * (((k : ℝ) + 1) * c₂.animationTimestep) +
              lis₂.delta) * (h₂ * c₂.scale))] ∧
    (onInitialTimer lis₂ w₂ h₂ c₂).2.points.length = k + 1 ∧
    (onInitialTimer lis₂ w₂ h₂ c₂).2.colours.length = k + 1 := by
  have hlt' : c₂.points.length < c₂.numPointsToAnimate := by omega
  have harg : c₂.currentTimestep + c₂.animationTimestep =
      ((k : ℝ) + 1) * c₂.animationTimestep := by
    rw [hct]
    ring
  refine ⟨rfl, ?_, rfl, ?_, ?_, ?_, ?_⟩
  · simp [initialiseGLAnimate, updateLissajous, one_mul]
  · simp [initialiseGLAnimate, one_mul]
  · simp only [onInitialTimer, hlt', if_true, updateLissajous]
    rw [harg]
  · simp [onInitialTimer, hlt, hlt', hk]
  · simp [onInitialTimer, hlt, hlt', length_colourGradient, hk]

/-- Witness for the amended C4 at the initial canvas and at a concrete
one-point growing canvas. -/
theorem initialiseGLAnimate_one_point_then_grow_witness :
    cGrow1.points.length = 1 ∧
    cGrow1.currentTimestep = ((1 : ℕ) : ℝ) * cGrow1.animationTimestep ∧
    1 < cGrow1.numPointsToAnimate ∧
    ((initialiseGLAnimate lis0 1 1 mkCanvas).2.handler = Handler.initial ∧
      (initialiseGLAnimate lis0 1 1 mkCanvas).2.points =
        [(Real.sin (lis0.xFreq * ((1 : ℝ) * mkCanvas.animationTimestep)) * 1 *
            mkCanvas.scale,
          Real.sin (lis0.yFreq * ((1 : ℝ) * mkCanvas.animationTimestep) +
              lis0.delta) * 1 * mkCanvas.scale)] ∧
      (initialiseGLAnimate lis0 1 1 mkCanvas).2.points.length = 1 ∧
      (initialiseGLAnimate lis0 1 1 mkCanvas).2.currentTimestep =
        (1 : ℝ) * mkCanvas.animationTimestep ∧
      (onInitialTimer lis0 1 1 cGrow1).2.points =
        cGrow1.points ++
          [(Real.sin (lis0.xFreq * ((((1 : ℕ) : ℝ) + 1) * cGrow1.animationTimestep)) *
              (1 * cGrow1.scale),
            Real.sin (lis0.yFreq * ((((1 : ℕ) : ℝ) + 1) * cGrow1.animationTimestep) +
                lis0.delta) * (1 * cGrow1.scale))] ∧
      (onInitialTimer lis0 1 1 cGrow1).2.points.length = 1 + 1 ∧
      (onInitialTimer lis0 1 1 cGrow1).2.colours.length = 1 + 1) :=
  ⟨rfl,
    by rw [show cGrow1.currentTimestep = 2 * π / 1000 from rfl,
      show cGrow1.animationTimestep = 2 * π / 1000 from rfl]; norm_num,
    by norm_num [show cGrow1.numPointsToAnimate = 1000 from rfl],
    initialiseGLAnimate_one_point_then_grow lis0 lis0 1 1 1 1 mkCanvas cGrow1 1
      rfl
      (by rw [show cGrow1.currentTimestep = 2 * π / 1000 from rfl,
        show cGrow1.animationTimestep = 2 * π / 1000 from rfl]; norm_num)
      (by norm_num [show cGrow1.numPointsToAnimate = 1000 from rfl])⟩

/-- C3 counterexample: a parameter change arriving mid-sliding (here at
the concrete full sliding canvas `cFull`) does not reset the buffer
length to 0 — after the forced repaint the buffer holds one point. -/
theorem onParametersChanged_midSliding_not_empty :
    ¬ (onPaint lis0 1 1 (onParametersChanged cFull)).2.points.length = 0 := by
  have hb : cFull.bFrozen = false := rfl
  simp [onPaint, onParametersChanged, initialiseGL, initialiseGLAnimate, hb]

/-- C3 (amended): a parameter change (the canvas effect of the slider
handlers, followed by the repaint it forces) has exactly the same effect
on the engine state as re-invoking the mode switch with the current
mode — a full restart, never a partial patch; in particular a parameter
change arriving mid-sliding resets the engine to the growing phase with
buffer length 1 (the single fresh sample at `t = animationTimestep`),
not 0. -/
theorem onParametersChanged_eq_setMode (v : ℝ) (lis : Lissajous) (w h : ℝ)
    (c : MyGLCanvas) (hfr : c.bFrozen = true → c.handler = Handler.none) :
    (onXSlider v lis c).2 = onParametersChanged c ∧
    onPaint lis w h (onParametersChanged c) =
      onPaint lis w h (setMode c.bFrozen c) ∧
    (c.bFrozen = false →
      (onPaint lis w h (onParametersChanged c)).2.handler = Handler.initial ∧
      (onPaint lis w h (onParametersChanged c)).2.points.length = 1) := by
  refine ⟨rfl, ?_, ?_⟩
  · cases hbf : c.bFrozen with
    | true =>
      have hh := hfr hbf
      simp [onPaint, onParametersChanged, setMode, stopAnimate, initialiseGL,
        hbf, hh, initialiseGLFrozen]
    | false =>
      simp [onPaint, onParametersChanged, setMode, stopAnimate, initialiseGL,
        hbf, initialiseGLAnimate]
  · intro hbf
    constructor <;>
      simp [onPaint, onParametersChanged, initialiseGL, hbf, initialiseGLAnimate]

/-- Witness for the amended C3 at the concrete mid-sliding canvas
`cFull`. -/
theorem onParametersChanged_eq_setMode_witness :
    (cFull.bFrozen = true → cFull.handler = Handler.none) ∧
    ((onXSlider 2 lis0 cFull).2 = onParametersChanged cFull ∧
      onPaint lis0 1 1 (onParametersChanged cFull) =
        onPaint lis0 1 1 (setMode cFull.bFrozen cFull) ∧
      (cFull.bFrozen = false →
        (onPaint lis0 1 1 (onParametersChanged cFull)).2.handler =
          Handler.initial ∧
        (onPaint lis0 1 1 (onParametersChanged cFull)).2.points.length = 1)) :=
  ⟨fun hx => Bool.noConfusion ((show cFull.bFrozen = false from rfl) ▸ hx),
    onParametersChanged_eq_setMode 2 lis0 1 1 cFull
      (fun hx => Bool.noConfusion ((show cFull.bFrozen = false from rfl) ▸ hx))⟩
